import Mathlib

/-!
Verification of the Domination game engine (src/domination/core.py)

This file shallowly embeds the parts of the Domination game engine that the
claims C1..C10 are about, and proves or refutes each claim.

Conventions:
* Python floats are modelled as rationals (`ℚ`); the transcendental helpers
  `math.cos`, `math.sin`, `math.sqrt` are passed in as abstract functions
  `ℚ → ℚ`, so every theorem holds for every float implementation of them.
* Integer game state (scores, ammo, countdowns) is modelled as `ℤ`/`ℕ`.
* Fallible Python code (TypeError, NameError, ZeroDivisionError) is modelled
  with `Except String`.
* Functions keep the names of the Python methods they embed.
-/

namespace Domination

/-! ## Constants (core.py lines 42-52) -/

def TEAM_RED : ℕ := 0
def TEAM_BLUE : ℕ := 1
def TEAM_NEUTRAL : ℕ := 2

def CAPTURE_MODE_NEUTRAL : ℕ := 0
def CAPTURE_MODE_FIRST : ℕ := 1
def CAPTURE_MODE_MAJORITY : ℕ := 2

def ENDGAME_NONE : ℕ := 0
def ENDGAME_SCORE : ℕ := 1
def ENDGAME_CRUMBS : ℕ := 2

/-! ## Scores (Game.setup lines 246-247, ControlPoint.update lines 1177-1184)

`ControlPoint.update` is the only code that writes `score_red`/`score_blue`
after `Game.setup` initialized them (verified by inspecting every assignment
in core.py).  Scores are ints; they are modelled as `ℤ` since the update
decrements the opposing side without a lower bound check. -/

/-- Embeds the score-changing part of `ControlPoint.update` (core.py
lines 1179-1184): an owned control point moves one score point from the
other team to its own, unless its own team is already at `max_score`.
`cpteam` is the current `team` field of the control point, `s` is the pair
`(score_red, score_blue)` of the game. -/
def ControlPoint_update_scores (max_score : ℤ) (cpteam : ℕ) (s : ℤ × ℤ) : ℤ × ℤ :=
  if cpteam = TEAM_RED ∧ s.1 < max_score then (s.1 + 1, s.2 - 1)
  else if cpteam = TEAM_BLUE ∧ s.2 < max_score then (s.1 - 1, s.2 + 1)
  else s

/-- Embeds the score initialization in `Game.setup` (core.py lines 246-247):
`score_red = score_blue = max_score / 2` (Python 2 integer division). -/
def setup_scores (max_score : ℕ) : ℤ × ℤ :=
  ((max_score / 2 : ℕ), (max_score / 2 : ℕ))

/-- The score state of a match after `Game.setup` followed by an arbitrary
sequence of `ControlPoint.update` calls; `updates` lists the `team` field of
the control point performing each update, in order. -/
def run_scores (max_score : ℕ) (updates : List ℕ) : ℤ × ℤ :=
  updates.foldl (fun s t => ControlPoint_update_scores (max_score : ℤ) t s)
    (setup_scores max_score)

/-- Embeds the normalized score computed by `Game.end` (core.py line 416):
`stats.score = score_red / float(score_red + score_blue)`. -/
def end_stats_score (s : ℤ × ℤ) : ℚ :=
  (s.1 : ℚ) / ((s.1 : ℚ) + (s.2 : ℚ))

/-! ## Control point capture state machine (ControlPoint, lines 1169-1215) -/

/-- The mutable state of a control point: its owning `team` and its per-cycle
3-slot touch tally `collided` (Python list `[red, blue, neutral]`). -/
structure CPState where
  team : ℕ
  collided : ℕ × ℕ × ℕ
  deriving DecidableEq, Repr

/-- Python list indexing `collided[t]` for `t < 3`. -/
def tget (c : ℕ × ℕ × ℕ) (t : ℕ) : ℕ :=
  match t with
  | 0 => c.1
  | 1 => c.2.1
  | _ => c.2.2

/-- Python `collided[t] += 1` for `t < 3`. -/
def tinc (c : ℕ × ℕ × ℕ) (t : ℕ) : ℕ × ℕ × ℕ :=
  match t with
  | 0 => (c.1 + 1, c.2.1, c.2.2)
  | 1 => (c.1, c.2.1 + 1, c.2.2)
  | _ => (c.1, c.2.1, c.2.2 + 1)

/-- Embeds `ControlPoint.collide` for a colliding `Tank` of team `other`
(core.py lines 1186-1207).  The trailing `graphic` update (lines 1210-1215)
is renderer-only state and is not modelled.  Collisions with non-tank
objects do nothing in the source and are not modelled. -/
def ControlPoint_collide (capture_mode : ℕ) (cp : CPState) (other : ℕ) : CPState :=
  -- Neutral
  if capture_mode = 0 then
    if tget cp.collided cp.team > 0 ∧ cp.team ≠ other then
      { cp with team := TEAM_NEUTRAL }
    else
      { team := other, collided := tinc cp.collided other }
  -- Closest to center ("first")
  else if capture_mode = 1 then
    if tget cp.collided cp.team > 0 then cp
    else { team := other, collided := tinc cp.collided other }
  -- Majority
  else if capture_mode = 2 then
    let c := tinc cp.collided other
    if cp.team ≠ other ∧ tget c other = tget c cp.team then
      { team := TEAM_NEUTRAL, collided := c }
    else if tget c other > tget c cp.team then
      { team := other, collided := c }
    else
      { cp with collided := c }
  else cp

/-- Embeds the tally reset in `ControlPoint.update` (core.py line 1178):
`self.collided = [0, 0, 0]` at the start of every game step. -/
def ControlPoint_update_reset (cp : CPState) : CPState :=
  { cp with collided := (0, 0, 0) }

/-! ## Tank actions (Tank.get_action, core.py lines 1118-1153) -/

/-- Modelled from the spec: `angle_fix` from the `utilities` module (star
imported at core.py line 30, source absent from the repository snapshot).
Per the spec it normalizes an angle into a canonical range by shifting by
multiples of a full turn; `twoPi` stands for the float constant `2*math.pi`.
The embedding only uses that normalization fixes `0`. -/
def angle_fix (twoPi a : ℚ) : ℚ :=
  a - twoPi * (Int.floor ((a + twoPi / 2) / twoPi) : ℤ)

/-- The settings fields read by `Tank.get_action`. -/
structure TankSettings where
  max_turn : ℚ
  max_speed : ℚ
  think_time : ℚ
  deriving DecidableEq, Repr

/-- The tank state touched by `Tank.get_action`.  `x`, `y`, `angle` model the
Python attributes of the same names; `actions` is the recorded/replayed
action list; `time_thought` is the think time accumulated so far this step
(set by `send_observation`). -/
structure TankState where
  x : ℚ
  y : ℚ
  angle : ℚ
  ammo : ℕ
  respawn_in : ℤ
  shoots : Bool
  record : Bool
  actions : List (ℚ × ℚ × Bool)
  time_thought : ℚ
  deriving DecidableEq, Repr

/-- Result of one `Tank.get_action` call.  `timeout_logged` records whether
the `[Game]: Agent ... timed out` line was logged; `raised` whether the
agent error flag was set; `used` holds the clamped `(turn, speed, shoot)`
locals at the moment they are applied (line 1145-1151), `none` when the
tank is respawning and no action is applied. -/
structure ActionOutcome where
  tank : TankState
  timeout_logged : Bool
  raised : Bool
  used : Option (ℚ × ℚ × Bool)
  deriving DecidableEq, Repr

/-- Embeds `Tank.get_action` (core.py lines 1118-1153).
`brainResult` is what `self.brain.action()` produced (`none` when the
delegate raised, in which case the source substitutes `(0,0,False)` and sets
the per-game error flag); `brainElapsed` is the wall-clock duration of that
call as measured by the surrounding `time.clock()` pair.  `cosF`/`sinF` are
the float cosine/sine.  The renderer debug hook (line 1140-1141) is
presentation-only and not modelled. -/
def Tank_get_action (cosF sinF : ℚ → ℚ) (twoPi : ℚ) (st : TankSettings)
    (brainResult : Option (ℚ × ℚ × Bool)) (brainElapsed : ℚ)
    (t : TankState) : ActionOutcome :=
  -- Ask brain for action (or replay): `if not self.record and self.actions`
  let step1 : (ℚ × ℚ × Bool) × List (ℚ × ℚ × Bool) × ℚ × Bool × Bool :=
    if t.record = false ∧ t.actions ≠ [] then
      (t.actions.headD (0, 0, false), t.actions.tail, t.time_thought, false, false)
    else
      let raised := brainResult.isNone
      let act0 := brainResult.getD (0, 0, false)
      let tt := t.time_thought + brainElapsed
      let timedOut : Bool := tt > st.think_time
      let act := if timedOut then ((0 : ℚ), (0 : ℚ), false) else act0
      let acts := if t.record then t.actions ++ [act] else t.actions
      (act, acts, tt, timedOut, raised)
  match step1 with
  | ((turn, speed, shoot), acts, tt, timedOut, raised) =>
    if t.respawn_in = -1 then
      let speed2 := min st.max_speed speed
      let turn2 := max (-st.max_turn) (min st.max_turn (angle_fix twoPi turn))
      let angle2 := t.angle + turn2
      let x2 := t.x + cosF angle2 * speed2
      let y2 := t.y + sinF angle2 * speed2
      let doShoot : Bool := shoot && decide (0 < t.ammo)
      { tank := { t with
        x := x2, y := y2, angle := angle2,
        ammo := if doShoot then t.ammo - 1 else t.ammo,
        shoots := doShoot, actions := acts, time_thought := tt }
        timeout_logged := timedOut
        raised := raised
        used := some (turn2, speed2, doShoot) }
    else
      { tank := { t with shoots := false, actions := acts, time_thought := tt }
        timeout_logged := timedOut
        raised := raised
        used := none }

/-! ## Collision separation (Game.compute_separation, core.py lines 556-649) -/

def SHAPE_RECT : ℕ := 0
def SHAPE_CIRC : ℕ := 1

/-- The object fields read by `compute_separation`: the substep position
`_x`/`_y` (modelled as `x`/`y`), extents and shape tag. -/
structure PObj where
  x : ℚ
  y : ℚ
  width : ℚ
  height : ℚ
  shape : ℕ
  deriving DecidableEq, Repr

/-- The circle/circle separation arm of `compute_separation` (core.py
lines 599-614), with `proxy` the `circleproxy` triple `(cx, cy, ra)` and
`object2` the (possibly locally swapped) second object.  `sqrtF` is the
float square root. -/
def sep_circles (sqrtF : ℚ → ℚ) (proxy : ℚ × ℚ × ℚ) (object2 : PObj) :
    Option (ℚ × ℚ × ℚ) :=
  let cx := proxy.1
  let cy := proxy.2.1
  let ra := proxy.2.2
  let md := ra + object2.width / 2
  let dx := (cx + ra) - (object2.x + object2.width / 2)
  let dy := (cy + ra) - (object2.y + object2.height / 2)
  let ds := dx * dx + dy * dy
  if ds = 0 then some (0, 0, 0)
  else if ds < md * md then
    let d := sqrtF ds
    let p := md - d
    let f := p / d
    some (p, f * dx, f * dy)
  else none

/-- The rect/rect separation arm of `compute_separation` (core.py
lines 616-645): the four axis penetrations are tried in source order
(left, top, right, bottom); any non-positive one returns `None`, otherwise
the smallest so far wins. -/
def sep_rects (object1 object2 : PObj) : Option (ℚ × ℚ × ℚ) :=
  let o1l := object1.x
  let o1t := object1.y
  let o1r := o1l + object1.width
  let o1b := o1t + object1.height
  let o2l := object2.x
  let o2t := object2.y
  let o2r := o2l + object2.width
  let o2b := o2t + object2.height
  let pt1 := o1r - o2l
  if 0 < pt1 then
    let pt2 := o1b - o2t
    if 0 < pt2 then
      let pt3 := o2r - o1l
      if 0 < pt3 then
        let pt4 := o2b - o1t
        if 0 < pt4 then
          let s1 : ℚ × ℚ × ℚ := (pt1, -pt1, 0)
          let s2 := if pt2 < s1.1 then ((pt2, 0, -pt2) : ℚ × ℚ × ℚ) else s1
          let s3 := if pt3 < s2.1 then ((pt3, pt3, 0) : ℚ × ℚ × ℚ) else s2
          let s4 := if pt4 < s3.1 then ((pt4, 0, pt4) : ℚ × ℚ × ℚ) else s3
          some s4
        else none
      else none
    else none
  else none

/-- Embeds `Game.compute_separation` (core.py lines 556-649), returning the
`(p, px, py)` components of the result tuple of the source (the two object
references in that tuple are the argument objects; the `objects_switched`
un-swap at line 646 is dead code because the mixed branch assigns the
misspelled local `switched` at line 577).

Faithfully modelled quirk: in the circle/circle branch (lines 568-571) the
source assigns `sep_as_cicles = True` — a misspelling of the flag
`sep_as_circles` — so the flag keeps its initial `False` and the function
falls through to the rect/rect arm for two circles. -/
def Game_compute_separation (sqrtF : ℚ → ℚ) (object1 object2 : PObj) :
    Option (ℚ × ℚ × ℚ) :=
  if object1.shape = SHAPE_CIRC ∧ object2.shape = SHAPE_CIRC then
    -- `circleproxy` is assigned here in the source but the misspelled flag
    -- leaves `sep_as_circles = False`, so the rect/rect arm runs.
    sep_rects object1 object2
  else if object1.shape = SHAPE_RECT ∧ object2.shape = SHAPE_RECT then
    sep_rects object1 object2
  else
    -- mixed shapes: put the rect first (lines 576-578), then check the four
    -- corner regions (lines 579-597)
    let a := if object1.shape = SHAPE_CIRC then object2 else object1
    let b := if object1.shape = SHAPE_CIRC then object1 else object2
    let cx := b.x + b.width / 2
    let cy := b.y + b.height / 2
    let l := a.x
    let t := a.y
    let r := l + a.width
    let bo := t + a.height
    if cx < l then
      if cy < t then sep_circles sqrtF (l, t, 0) b
      else if cy > bo then sep_circles sqrtF (l, bo, 0) b
      else sep_rects a b
    else if cx > r then
      if cy < t then sep_circles sqrtF (r, t, 0) b
      else if cy > bo then sep_circles sqrtF (r, bo, 0) b
      else sep_rects a b
    else sep_rects a b

/-! ## Python call binding for the replay Tank construction (C1)

The replay branch of `Game.setup` (core.py lines 291-298) constructs tanks with
`Tank(self, s.x+2, s.y+2, s.angle, i, team=..., spawn=s, actions=a)` —
the game instance `self` is passed as the first positional argument, but
`Tank.__init__` (line 1019-1021) has no game parameter.  We model the
Python positional/keyword argument binding to settle what this call does. -/

/-- A Python value, as far as the Tank constructor calls need. -/
inductive PyVal where
  | num (q : ℚ)
  | pybool (b : Bool)
  | gameRef
  | spawnRef
  | brainRef
  | actionList
  | pynone
  deriving DecidableEq, Repr

/-- Python call binding: bind positional arguments to parameters in order,
then keyword arguments; a keyword naming an already positionally-bound
parameter raises `TypeError: got multiple values ...`, as does an unknown
keyword or too many positional arguments. -/
def bind_call (params : List String) (pos : List PyVal)
    (kw : List (String × PyVal)) : Except String (List (String × PyVal)) :=
  if params.length < pos.length then
    .error "TypeError: too many positional arguments"
  else if kw.any (fun nv => (params.take pos.length).contains nv.1) then
    .error "TypeError: got multiple values for keyword argument"
  else if kw.any (fun nv => !params.contains nv.1) then
    .error "TypeError: unexpected keyword argument"
  else
    .ok ((params.take pos.length).zip pos ++ kw)

/-- The parameters of `Tank.__init__` after `self` (core.py lines 1019-1021). -/
def Tank_init_params : List String :=
  ["x", "y", "angle", "id", "team", "brain", "spawn", "actions", "record"]

/-- The Tank constructor call in the replay branch of `Game.setup` (core.py
line 292 and, identically, line 296):
`Tank(self, s.x+2, s.y+2, s.angle, i, team=TEAM, spawn=s, actions=a)`. -/
def setup_replay_tank_call (sx sy sangle : ℚ) (i team : ℕ) :
    Except String (List (String × PyVal)) :=
  bind_call Tank_init_params
    [PyVal.gameRef, PyVal.num (sx + 2), PyVal.num (sy + 2),
     PyVal.num sangle, PyVal.num i]
    [("team", PyVal.num team), ("spawn", PyVal.spawnRef),
     ("actions", PyVal.actionList)]

/-- The Tank constructor call in the new-game branch of `Game.setup` (core.py
line 277): `Tank(s.x+2, s.y+2, s.angle, i, team=TEAM, brain=brain, spawn=s,
record=self.record)`. -/
def setup_brain_tank_call (sx sy sangle : ℚ) (i team : ℕ) (record : Bool) :
    Except String (List (String × PyVal)) :=
  bind_call Tank_init_params
    [PyVal.num (sx + 2), PyVal.num (sy + 2), PyVal.num sangle, PyVal.num i]
    [("team", PyVal.num team), ("brain", PyVal.brainRef),
     ("spawn", PyVal.spawnRef), ("record", PyVal.pybool record)]

/-! ## Name resolution for the crumbs end condition (C3)

`Game.run` evaluates
`(self.settings.end_condition & ENDGAME_CRUMBS) and not any(True for o in allobjects if isinstance(o, Crumb))`
(core.py lines 353-355).  `allobjects` is a local of `Game.setup`
(line 244), not of `run`; Python would look it up among the locals of run, then
the module globals, then builtins. -/

/-- The local names bound in `Game.run` (core.py lines 304-404): every
assignment and loop target in the method, plus its parameter. -/
def Game_run_local_names : List String :=
  ["self", "res", "render", "settings", "s", "p", "o", "t", "tank",
   "tcx", "tcy", "target", "hits", "px", "py", "who", "sum_red", "sum_blue",
   "step", "f", "_"]

/-- The module-level names of core.py: imports (lines 17-27), shortcuts
(lines 34-39), constants (lines 42-54), classes, and module dunders. -/
def core_module_globals : List String :=
  ["random", "sys", "re", "math", "time", "datetime", "itertools", "copy",
   "traceback", "bisect", "pprint", "sqrt", "inf", "pi", "sin", "cos",
   "rand", "TEAM_RED", "TEAM_BLUE", "TEAM_NEUTRAL", "CAPTURE_MODE_NEUTRAL",
   "CAPTURE_MODE_FIRST", "CAPTURE_MODE_MAJORITY", "ENDGAME_NONE",
   "ENDGAME_SCORE", "ENDGAME_CRUMBS", "AGENT_GLOBALS", "Settings",
   "GameStats", "Game", "Field", "FieldGenerator", "GameObject", "Tank",
   "Wall", "ControlPoint", "Ammo", "Crumb", "Fountain", "AmmoFountain",
   "CrumbFountain", "TankSpawn", "Observation", "ReplayData", "renderer",
   "__author__", "__version__", "__name__", "__doc__"]

/-- Modelled from the spec: the names exported by the `utilities` and `libs`
modules (star-imported at core.py lines 30-31; their sources are absent from
the repository snapshot).  The spec (§2) describes them as geometry/math
helpers — vector/angle normalization, line–rectangle and line–circle
intersection, rectangle merging, navigation-mesh building and path search,
grid reachability flood fill — plus the `GameInterrupt` signal caught at
line 399. -/
def star_import_names : List String :=
  ["angle_fix", "line_intersects_rect", "line_intersects_circ",
   "rects_merge", "rect_bound", "rect_corners", "point_in_rect",
   "reachable", "make_nav_mesh", "find_path", "angle_diff",
   "GameInterrupt"]

/-- The Python builtins the end-condition expression could fall back to. -/
def python_builtins : List String :=
  ["any", "all", "isinstance", "len", "sum", "xrange", "range", "enumerate",
   "zip", "min", "max", "abs", "True", "False", "None"]

/-- Whether `n` resolves in the scope of `Game.run`. -/
def name_in_run_scope (n : String) : Bool :=
  Game_run_local_names.contains n || core_module_globals.contains n ||
  star_import_names.contains n || python_builtins.contains n

/-- Embeds the crumb end-condition evaluation of `Game.run` (core.py
lines 353-355).  The Python `and` short-circuits, so the generator expression
over `allobjects` is only evaluated when the crumbs flag is set; evaluating
it resolves the name `allobjects` first.  `crumbs_left` abstracts whether
any `Crumb` object remains. -/
def run_crumbs_end_check (end_condition : ℕ) (crumbs_left : Bool) :
    Except String Bool :=
  if end_condition &&& ENDGAME_CRUMBS ≠ 0 then
    if name_in_run_scope "allobjects" then .ok (!crumbs_left)
    else .error "NameError: global name allobjects is not defined"
  else .ok false

/-! ## Field generation (FieldGenerator, core.py lines 817-956)

The wall tilemap is a list of rows of 0/1 ints as in the source; a tile
coordinate is `(x, y)` = (column, row), matching the source
`(j, i)`/`(x, y)` convention. -/

abbrev Tilemap := List (List ℕ)
abbrev Tile := ℕ × ℕ

/-- Whether tile `p` is inside the map and wall-free (`walls[y][x] == 0`). -/
def tile_free (g : Tilemap) (p : Tile) : Bool :=
  (g.getD p.2 []).getD p.1 1 == 0

/-- 4-neighbourhood adjacency of grid tiles. -/
def Adj (p q : Tile) : Prop :=
  (p.1 = q.1 ∧ (p.2 + 1 = q.2 ∨ q.2 + 1 = p.2)) ∨
  (p.2 = q.2 ∧ (p.1 + 1 = q.1 ∨ q.1 + 1 = p.1))

instance (p q : Tile) : Decidable (Adj p q) := by unfold Adj; infer_instance

/-- All tile coordinates of a map. -/
def all_tiles (g : Tilemap) : List Tile :=
  (List.range g.length).flatMap fun y =>
    (List.range (g.getD y []).length).map fun x => (x, y)

/-- `canReach g n s p`: there is a path of at most `n` steps from `s` to `p`
through wall-free tiles (both endpoints free).  This is the path-existence
predicate that a grid flood fill computes. -/
def canReach (g : Tilemap) : ℕ → Tile → Tile → Bool
  | 0, s, p => s == p && tile_free g p
  | n + 1, s, p =>
    canReach g n s p ||
      (tile_free g p &&
        (all_tiles g).any fun q => decide (Adj q p) && canReach g n s q)

/-- Modelled from the spec: `reachable(grid, start)` from the missing
`utilities` module combined with the acceptance check
`all(reachability[y][x] for (x,y) in reachable_points)` (core.py
lines 951-952).  The spec (§2, §4.1) describes `reachable` as a grid
reachability flood fill from the red spawn; a flood fill over a finite grid
marks exactly the tiles connected to the start, and paths never need more
steps than there are tiles, so the check is `canReach` with the tile count
as fuel. -/
def reachable_all (g : Tilemap) (start : Tile) (pts : List Tile) : Bool :=
  pts.all fun p => canReach g (all_tiles g).length start p

/-- Writes value `v` at tile `p` (`tilemap[y][x] = v`); out-of-range writes
are dropped (the source never performs any). -/
def set_tile (g : Tilemap) (p : Tile) (v : ℕ) : Tilemap :=
  g.set p.2 ((g.getD p.2 []).set p.1 v)

/-- A candidate wall segment: the grid-snapped rectangle of tiles that one
loop iteration of `create_wall_map` fills with 1s (core.py lines 938-950). -/
structure WallSeg where
  x : ℕ
  y : ℕ
  w : ℕ
  h : ℕ
  deriving DecidableEq, Repr

/-- Fills the rectangle of the segment with wall tiles:
`for i in xrange(y, y+h): for j in xrange(x, x+w): new[i][j] = 1`. -/
def apply_seg (g : Tilemap) (seg : WallSeg) : Tilemap :=
  ((List.range seg.h).flatMap fun di =>
    (List.range seg.w).map fun dj => ((seg.x + dj, seg.y + di) : Tile)).foldl
    (fun m p => set_tile m p 1) g

/-- `sum(sum(row) for row in tilemap)` (core.py line 935). -/
def fill_sum (g : Tilemap) : ℕ := (g.map List.sum).sum

/-- The starting half-map of `create_wall_map` (core.py lines 920-928):
top and bottom rows of walls, `height-2` middle rows walled only in the
first column; `halfwidth = int(0.5 + width/2.0)` columns. -/
def initial_tilemap (width height : ℕ) : Tilemap :=
  let halfwidth := (width + 1) / 2
  let t := List.replicate halfwidth 1
  let m := 1 :: List.replicate (halfwidth - 1) 0
  let b := List.replicate halfwidth 1
  [t] ++ List.replicate (height - 2) m ++ [b]

/-- Embeds `FieldGenerator.reflect_tilemap` with `axis_vertical=True`
(core.py lines 836-850) for rectangular maps: transpose, take column `i`
for `i < newsize//2` and the mirrored column `newsize-1-i` otherwise,
transpose back. -/
def reflect_tilemap (tm : Tilemap) (newsize : ℕ) : Tilemap :=
  let t := tm.transpose
  ((List.range newsize).map fun i =>
    if i < newsize / 2 then t.getD i [] else t.getD (newsize - 1 - i) []).transpose

/-- Embeds the wall-placement loop of `create_wall_map` (core.py
lines 934-955).  The source draws random segments until the fill target is
met or 100 candidates have failed; randomness is modelled by the stream
`segs` of candidate segments (the theorems quantify over all streams, which
covers every seed; a run that stops needs only finitely many candidates).
A candidate is accepted only if, on the reflected full map, every reachable
point is still reachable from the red spawn. -/
def create_wall_loop (width : ℕ) (spawn : Tile) (pts : List Tile)
    (min_filled : ℕ) : Tilemap → ℕ → List WallSeg → Tilemap
  | g, _, [] => g
  | g, failed, seg :: rest =>
    if min_filled ≤ fill_sum g ∨ 100 ≤ failed then g
    else
      if reachable_all (reflect_tilemap (apply_seg g seg) width) spawn pts then
        create_wall_loop width spawn pts min_filled (apply_seg g seg) failed rest
      else
        create_wall_loop width spawn pts min_filled g (failed + 1) rest

/-- `FieldGenerator.create_wall_map` (core.py lines 915-956): run the wall
loop from the initial half-map and reflect the result into the full map
(`field.walls = self.reflect_tilemap(tilemap, self.width)`). -/
def FieldGenerator_create_wall_map (width height : ℕ) (spawn : Tile)
    (pts : List Tile) (min_filled : ℕ) (segs : List WallSeg) : Tilemap :=
  reflect_tilemap
    (create_wall_loop width spawn pts min_filled (initial_tilemap width height) 0 segs)
    width

/-- `FieldGenerator.clear_walls_under_objects` (core.py lines 852-862) sets
the wall tiles under every placed object to 0; `cleared` is the list of
tiles it clears (the spawn tiles and the tile each spawn faces, the 3x3
blocks around control points, and the other-object tiles).  The reachability
theorem holds for every such list, so the float-rounding of the facing tile
need not be modelled. -/
def clear_tiles (g : Tilemap) (ps : List Tile) : Tilemap :=
  ps.foldl (fun m p => set_tile m p 0) g

/-- The final wall grid produced by `FieldGenerator.generate` steps 2 and 3
(core.py lines 872-875): `create_wall_map` followed by
`clear_walls_under_objects`. -/
def generate_walls (width height : ℕ) (spawn : Tile) (pts : List Tile)
    (min_filled : ℕ) (segs : List WallSeg) (cleared : List Tile) : Tilemap :=
  clear_tiles (FieldGenerator_create_wall_map width height spawn pts min_filled segs)
    cleared

/-! ## Decision delegate construction (Game.setup, core.py lines 269-288) -/

/-- Marker for the loaded `red_brain_class` / `blue_brain_class`. -/
def RED_BRAIN_CLASS : ℕ := 0
def BLUE_BRAIN_CLASS : ℕ := 1

/-- Marker for the `red_init` / `blue_init` kwargs dict. -/
def RED_INIT : ℕ := 0
def BLUE_INIT : ℕ := 1

/-- The arguments `Game.setup` passes when constructing one tank decision
delegate: the agent class called, the agent index, the team id argument,
which `*_init` kwargs dict is spliced in, and whether the field geometry
(`field_rects`, `field_grid`, `nav_mesh`) is passed.  A settings copy is
passed in every branch and is not modelled. -/
structure BrainCtor where
  cls : ℕ
  idx : ℕ
  team_arg : ℕ
  init_kwargs : ℕ
  field_args : Bool
  deriving DecidableEq, Repr

/-- The delegate construction for red tank `i` (core.py lines 272-276). -/
def setup_red_brain (field_known : Bool) (i : ℕ) : BrainCtor :=
  if field_known then ⟨RED_BRAIN_CLASS, i, TEAM_RED, RED_INIT, true⟩
  else ⟨RED_BRAIN_CLASS, i, TEAM_RED, RED_INIT, false⟩

/-- The delegate construction for blue tank `i` (core.py lines 281-285).
When `field_known` is false the else branch of the source reads
`brain = self.red_brain_class(i, TEAM_RED, settings=copy.copy(self.settings), **self.red_init)` —
the red class, red team id and red kwargs. -/
def setup_blue_brain (field_known : Bool) (i : ℕ) : BrainCtor :=
  if field_known then ⟨BLUE_BRAIN_CLASS, i, TEAM_BLUE, BLUE_INIT, true⟩
  else ⟨RED_BRAIN_CLASS, i, TEAM_RED, RED_INIT, false⟩

/-! # Theorems -/

/-! ## C10 and C5: the score invariant and the normalized final score -/

/-- The score invariant of a running match. -/
def ScoresInv (max_score : ℤ) (s : ℤ × ℤ) : Prop :=
  s.1 + s.2 = max_score ∧ 0 ≤ s.1 ∧ s.1 ≤ max_score

lemma foldl_inv {α σ : Type} (P : σ → Prop) (f : σ → α → σ)
    (hf : ∀ s a, P s → P (f s a)) :
    ∀ (l : List α) (s : σ), P s → P (l.foldl f s) := by
  intro l
  induction l with
  | nil => intro s hs; simpa
  | cons a rest ih => intro s hs; exact ih (f s a) (hf s a hs)

lemma ControlPoint_update_scores_inv (max_score : ℤ) (s : ℤ × ℤ) (t : ℕ)
    (h : ScoresInv max_score s) :
    ScoresInv max_score (ControlPoint_update_scores max_score t s) := by
  obtain ⟨a, b⟩ := s
  unfold ScoresInv ControlPoint_update_scores at *
  split_ifs <;> simp_all <;> omega

lemma run_scores_inv (max_score : ℕ) (he : Even max_score) (updates : List ℕ) :
    ScoresInv (max_score : ℤ) (run_scores max_score updates) := by
  unfold run_scores
  apply foldl_inv (ScoresInv (max_score : ℤ))
    (fun s t => ControlPoint_update_scores (max_score : ℤ) t s)
    (fun s t hs => ControlPoint_update_scores_inv (max_score : ℤ) s t hs)
  obtain ⟨r, hr⟩ := he
  unfold ScoresInv setup_scores
  subst hr
  constructor
  · push_cast
    omega
  · constructor
    · positivity
    · push_cast
      omega

/-- **C10.** Throughout every match `score_red + score_blue = max_score`:
`Game.setup` initializes both scores to `max_score / 2` (with `max_score`
even this sums to `max_score`), and every `ControlPoint.update` either
leaves the scores unchanged or moves exactly one point from one side to the
other; scores are written nowhere else in core.py. -/
theorem c10_score_sum_invariant (max_score : ℕ) (he : Even max_score) :
    (setup_scores max_score).1 + (setup_scores max_score).2 = max_score ∧
    (∀ t s, ControlPoint_update_scores (max_score : ℤ) t s = s ∨
      ControlPoint_update_scores (max_score : ℤ) t s = (s.1 + 1, s.2 - 1) ∨
      ControlPoint_update_scores (max_score : ℤ) t s = (s.1 - 1, s.2 + 1)) ∧
    ∀ updates : List ℕ,
      (run_scores max_score updates).1 + (run_scores max_score updates).2 = max_score := by
  refine ⟨?_, ?_, ?_⟩
  · obtain ⟨r, hr⟩ := he
    subst hr
    unfold setup_scores
    push_cast
    omega
  · intro t s
    obtain ⟨a, b⟩ := s
    unfold ControlPoint_update_scores
    split_ifs <;> simp
  · intro updates
    exact (run_scores_inv max_score he updates).1

/-- **C10 witness.** -/
theorem c10_score_sum_invariant_witness :
    Even 1000 ∧
    (run_scores 1000 [0, 1, 2, 1, 0]).1 + (run_scores 1000 [0, 1, 2, 1, 0]).2 = 1000 :=
  ⟨⟨500, rfl⟩, (c10_score_sum_invariant 1000 ⟨500, rfl⟩).2.2 [0, 1, 2, 1, 0]⟩

/-- **C5.** For every match that ends, the finalized `stats.score` equals
`score_red / (score_red + score_blue)` (which by the sum invariant is
`score_red / max_score`) and lies in `[0, 1]`.  `max_score` must be positive
(the Settings default is 1000; with `max_score = 0` the division in `Game.end`
would be a `ZeroDivisionError`, but then no stats are finalized at all). -/
theorem c5_normalized_score (max_score : ℕ) (he : Even max_score)
    (hpos : 0 < max_score) (updates : List ℕ) :
    end_stats_score (run_scores max_score updates) =
      ((run_scores max_score updates).1 : ℚ) / (max_score : ℚ) ∧
    0 ≤ end_stats_score (run_scores max_score updates) ∧
    end_stats_score (run_scores max_score updates) ≤ 1 := by
  obtain ⟨hsum, hlo, hhi⟩ := run_scores_inv max_score he updates
  set s := run_scores max_score updates
  have hden : ((s.1 : ℚ) + (s.2 : ℚ)) = (max_score : ℚ) := by
    exact_mod_cast congrArg (fun z : ℤ => (z : ℚ)) hsum
  have heq : end_stats_score s = (s.1 : ℚ) / (max_score : ℚ) := by
    unfold end_stats_score
    rw [hden]
  refine ⟨heq, ?_, ?_⟩
  · rw [heq]
    apply div_nonneg
    · exact_mod_cast hlo
    · positivity
  · rw [heq]
    rw [div_le_one (by positivity)]
    exact_mod_cast hhi

/-- **C5 witness.** -/
theorem c5_normalized_score_witness :
    Even 4 ∧ 0 < 4 ∧
    (end_stats_score (run_scores 4 [0, 0, 1]) =
      ((run_scores 4 [0, 0, 1]).1 : ℚ) / (4 : ℚ) ∧
    0 ≤ end_stats_score (run_scores 4 [0, 0, 1]) ∧
    end_stats_score (run_scores 4 [0, 0, 1]) ≤ 1) :=
  ⟨⟨2, rfl⟩, by norm_num, c5_normalized_score 4 ⟨2, rfl⟩ (by norm_num) [0, 0, 1]⟩

/-! ## C7: majority capture mode -/

/-- **C7.** In majority mode (`capture_mode = 2`), a touch by a tank of team
`other` first bumps the tally of that team; writing `c` for the bumped tallies,
the point then flips to `other` exactly when `c[other]` strictly exceeds the
tally of the current owner, and goes neutral exactly when the toucher differs
from the owner and the two tallies are equal; a touch by the owning team
never changes ownership.  Hypotheses: tanks are red or blue, and the
neutral tally slot is 0 (it starts at 0, is reset to 0 by
`ControlPoint.update` each step, and no tank has the neutral team). -/
theorem c7_majority_capture (cp : CPState) (other : ℕ)
    (hother : other = TEAM_RED ∨ other = TEAM_BLUE)
    (hneutral : cp.collided.2.2 = 0) :
    (ControlPoint_collide CAPTURE_MODE_MAJORITY cp other).collided =
      tinc cp.collided other ∧
    (cp.team ≠ other →
      ((ControlPoint_collide CAPTURE_MODE_MAJORITY cp other).team = other ↔
        tget (tinc cp.collided other) other > tget (tinc cp.collided other) cp.team)) ∧
    (cp.team ≠ other →
      ((ControlPoint_collide CAPTURE_MODE_MAJORITY cp other).team = TEAM_NEUTRAL ↔
        tget (tinc cp.collided other) other = tget (tinc cp.collided other) cp.team)) ∧
    (cp.team = other →
      (ControlPoint_collide CAPTURE_MODE_MAJORITY cp other).team = cp.team) := by
  obtain ⟨team, c0, c1, c2⟩ := cp
  have hc2 : c2 = 0 := hneutral
  subst hc2
  rcases hother with rfl | rfl <;>
    rcases team with _ | _ | team <;>
      simp_all [ControlPoint_collide, CAPTURE_MODE_MAJORITY, TEAM_NEUTRAL,
        TEAM_RED, TEAM_BLUE, tget, tinc] <;>
    split_ifs <;> simp_all

/-- **C7 witness**: a red-owned point touched by blue in a cycle with one
prior red touch: tallies become `(1, 1, 0)`, a tie, so the point goes
neutral. -/
theorem c7_majority_capture_witness :
    ((1 : ℕ) = TEAM_RED ∨ (1 : ℕ) = TEAM_BLUE) ∧
    (((⟨0, 1, 0, 0⟩ : CPState).collided.2.2 = 0) ∧
     ((ControlPoint_collide CAPTURE_MODE_MAJORITY ⟨0, 1, 0, 0⟩ 1).collided =
        tinc (⟨0, 1, 0, 0⟩ : CPState).collided 1) ∧
     ((ControlPoint_collide CAPTURE_MODE_MAJORITY ⟨0, 1, 0, 0⟩ 1).team = TEAM_NEUTRAL)) := by
  have h := c7_majority_capture ⟨0, 1, 0, 0⟩ 1 (Or.inr rfl) rfl
  refine ⟨Or.inr rfl, rfl, h.1, ?_⟩
  exact (h.2.2.1 (by decide)).2 (by decide)

/-! ## C6 and C8: think-time enforcement and action clamping -/

lemma angle_fix_zero (twoPi : ℚ) : angle_fix twoPi 0 = 0 := by
  unfold angle_fix
  rcases eq_or_ne twoPi 0 with h | h
  · simp [h]
  · have h2 : (0 + twoPi / 2) / twoPi = 1 / 2 := by
      field_simp
      ring
    have h3 : (⌊(1 : ℚ) / 2⌋ : ℤ) = 0 := by
      rw [Int.floor_eq_zero_iff]
      constructor <;> norm_num
    rw [h2, h3]
    simp

/-- **C6.** If a tank with a decision delegate accumulates more decision
time this step than `think_time`, `get_action` logs the timeout, uses the
no-op `(0, 0, False)` instead of the returned action, and the
position, angle, ammo and shooting flag of the tank are untouched by its own action;
the function returns normally so the match continues.  (The hypotheses
`0 ≤ max_turn` and `0 ≤ max_speed` hold for any sensible settings; the
defaults are `pi/3` and `40`.) -/
theorem c6_think_timeout (cosF sinF : ℚ → ℚ) (twoPi : ℚ) (st : TankSettings)
    (r : ℚ × ℚ × Bool) (brainElapsed : ℚ) (t : TankState)
    (hbrain : t.record = true ∨ t.actions = [])
    (hmt : 0 ≤ st.max_turn) (hms : 0 ≤ st.max_speed)
    (htime : st.think_time < t.time_thought + brainElapsed) :
    (Tank_get_action cosF sinF twoPi st (some r) brainElapsed t).timeout_logged = true ∧
    (Tank_get_action cosF sinF twoPi st (some r) brainElapsed t).tank.x = t.x ∧
    (Tank_get_action cosF sinF twoPi st (some r) brainElapsed t).tank.y = t.y ∧
    (Tank_get_action cosF sinF twoPi st (some r) brainElapsed t).tank.angle = t.angle ∧
    (Tank_get_action cosF sinF twoPi st (some r) brainElapsed t).tank.shoots = false ∧
    (Tank_get_action cosF sinF twoPi st (some r) brainElapsed t).tank.ammo = t.ammo ∧
    (t.respawn_in = -1 →
      (Tank_get_action cosF sinF twoPi st (some r) brainElapsed t).used =
        some (0, 0, false)) := by
  have hcond : ¬ (t.record = false ∧ t.actions ≠ []) := by
    rcases hbrain with h | h <;> simp [h]
  have h1 : min st.max_turn 0 = 0 := min_eq_right hmt
  have h2 : max (-st.max_turn) 0 = 0 := max_eq_right (neg_nonpos.mpr hmt)
  have h3 : min st.max_speed 0 = 0 := min_eq_right hms
  by_cases hresp : t.respawn_in = -1 <;>
    simp [Tank_get_action, hcond, htime, hresp, angle_fix_zero, h1, h2, h3]

/-- **C6 witness.** -/
theorem c6_think_timeout_witness :
    (Tank_get_action (fun _ => 1) (fun _ => 1) 7 ⟨1, 40, 1 / 100⟩
        (some (1, 2, true)) 1 ⟨2, 3, 5, 4, -1, false, true, [], 0⟩).timeout_logged = true ∧
    (Tank_get_action (fun _ => 1) (fun _ => 1) 7 ⟨1, 40, 1 / 100⟩
        (some (1, 2, true)) 1 ⟨2, 3, 5, 4, -1, false, true, [], 0⟩).tank.x = 2 ∧
    (Tank_get_action (fun _ => 1) (fun _ => 1) 7 ⟨1, 40, 1 / 100⟩
        (some (1, 2, true)) 1 ⟨2, 3, 5, 4, -1, false, true, [], 0⟩).used =
      some (0, 0, false) := by
  have h := c6_think_timeout (fun _ => 1) (fun _ => 1) 7 ⟨1, 40, 1 / 100⟩
    (1, 2, true) 1 ⟨2, 3, 5, 4, -1, false, true, [], 0⟩
    (Or.inl rfl) (by norm_num) (by norm_num) (by norm_num)
  exact ⟨h.1, h.2.1, h.2.2.2.2.2.2 rfl⟩

/-- **C8 counterexample.**  The claim says the magnitude of the applied speed
cannot exceed `max_speed`, but the source clamps with
`speed = min(self.game.settings.max_speed, speed)` — an upper clamp only.
With `max_speed = 40` and a requested speed of `-100`, the applied speed is
`-100`, whose magnitude exceeds 40. -/
theorem c8_counterexample :
    (Tank_get_action (fun _ => 1) (fun _ => 0) 7 ⟨1, 40, 1⟩
        (some (0, -100, false)) 0 ⟨0, 0, 0, 5, -1, false, false, [], 0⟩).used =
      some (0, -100, false) ∧
    ¬ (|(-100 : ℚ)| ≤ 40) := by
  constructor
  · have h0 : angle_fix 7 0 = 0 := angle_fix_zero 7
    have h1 : min (1 : ℚ) 0 = 0 := by norm_num
    have h2 : max (-1 : ℚ) 0 = 0 := by norm_num
    have h3 : min (40 : ℚ) (-100) = -100 := by norm_num
    simp [Tank_get_action, h1, h2, h3]
    norm_num [h0]
  · rw [abs_of_nonpos (by norm_num)]
    norm_num

/-- **C8 (amended).**  For a live tank (`respawn_in = -1`) on the brain path
whose decision arrived in time, the applied turn is `angle_fix`ed and then
clamped into `[-max_turn, max_turn]`, the applied speed is
`min(max_speed, speed)` — clamped from above only, so it never exceeds
`max_speed` but its magnitude is unbounded below — and shooting takes
effect (decrementing ammo by one) exactly when requested with ammo > 0. -/
theorem c8_action_clamping (cosF sinF : ℚ → ℚ) (twoPi : ℚ) (st : TankSettings)
    (tu sp : ℚ) (sh : Bool) (brainElapsed : ℚ) (t : TankState)
    (halive : t.respawn_in = -1)
    (hbrain : t.record = true ∨ t.actions = [])
    (hok : t.time_thought + brainElapsed ≤ st.think_time)
    (hmt : 0 ≤ st.max_turn) :
    (Tank_get_action cosF sinF twoPi st (some (tu, sp, sh)) brainElapsed t).used =
      some (max (-st.max_turn) (min st.max_turn (angle_fix twoPi tu)),
            min st.max_speed sp, sh && decide (0 < t.ammo)) ∧
    -st.max_turn ≤ max (-st.max_turn) (min st.max_turn (angle_fix twoPi tu)) ∧
    max (-st.max_turn) (min st.max_turn (angle_fix twoPi tu)) ≤ st.max_turn ∧
    min st.max_speed sp ≤ st.max_speed ∧
    (Tank_get_action cosF sinF twoPi st (some (tu, sp, sh)) brainElapsed t).tank.shoots =
      (sh && decide (0 < t.ammo)) ∧
    ((sh && decide (0 < t.ammo)) = true →
      0 < t.ammo ∧
      (Tank_get_action cosF sinF twoPi st (some (tu, sp, sh)) brainElapsed t).tank.ammo =
        t.ammo - 1) ∧
    ((sh && decide (0 < t.ammo)) = false →
      (Tank_get_action cosF sinF twoPi st (some (tu, sp, sh)) brainElapsed t).tank.ammo =
        t.ammo) := by
  have hcond : ¬ (t.record = false ∧ t.actions ≠ []) := by
    rcases hbrain with h | h <;> simp [h]
  have hnt : ¬ (st.think_time < t.time_thought + brainElapsed) := not_lt.mpr hok
  refine ⟨?_, le_max_left _ _, ?_, min_le_left _ _, ?_, ?_, ?_⟩
  · simp [Tank_get_action, hcond, hnt, halive]
  · exact max_le (by linarith) (min_le_left _ _)
  · simp [Tank_get_action, hcond, hnt, halive]
  · intro hshoot
    have hammo : 0 < t.ammo := by
      have := hshoot
      simp [Bool.and_eq_true, decide_eq_true_eq] at this
      exact this.2
    refine ⟨hammo, ?_⟩
    simp [Tank_get_action, hcond, hnt, halive, hshoot]
  · intro hshoot
    simp [Tank_get_action, hcond, hnt, halive, hshoot]

/-- **C8 (amended) witness.** -/
theorem c8_action_clamping_witness :
    (Tank_get_action (fun _ => 1) (fun _ => 0) 7 ⟨1, 40, 1⟩
        (some (0, -100, true)) 0 ⟨0, 0, 0, 5, -1, false, true, [], 0⟩).used =
      some (max (-(1 : ℚ)) (min 1 (angle_fix 7 0)), min (40 : ℚ) (-100),
            true && decide (0 < 5)) ∧
    min (40 : ℚ) (-100) ≤ 40 ∧
    (Tank_get_action (fun _ => 1) (fun _ => 0) 7 ⟨1, 40, 1⟩
        (some (0, -100, true)) 0 ⟨0, 0, 0, 5, -1, false, true, [], 0⟩).tank.ammo = 4 := by
  have h := c8_action_clamping (fun _ => 1) (fun _ => 0) 7 ⟨1, 40, 1⟩
    0 (-100) true 0 ⟨0, 0, 0, 5, -1, false, true, [], 0⟩
    rfl (Or.inl rfl) (by norm_num) (by norm_num)
  exact ⟨h.1, h.2.2.2.1, (h.2.2.2.2.2.1 (by decide)).2⟩

/-! ## C2: circle-circle separation -/

/-- **C2 (the actual behaviour of the code at a failing input).**  Two circles of
radius 8 with centers `(8, 8)` and `(18, 18)`: center distance
`d = sqrt(200) < 16 = r1 + r2`, so the claim demands penetration
`(r1 + r2) - d` (whose square satisfies `(16 - p)² = 200`) and a correction
parallel to the center axis `(10, 10)`.  Because line 571 assigns the
misspelled `sep_as_cicles`, the source instead runs the rect/rect arm and
returns `(6, -6, 0)`: `(16 - 6)² = 100 ≠ 200`, and `(-6, 0)` is not
parallel to `(10, 10)` (nonzero cross product).  The result holds for every
float square root since the circle arm is never reached. -/
theorem c2_circle_separation_bug (sqrtF : ℚ → ℚ) :
    Game_compute_separation sqrtF
        ⟨0, 0, 16, 16, SHAPE_CIRC⟩ ⟨10, 10, 16, 16, SHAPE_CIRC⟩ =
      some (6, -6, 0) ∧
    ((16 : ℚ) - 6) ^ 2 ≠ 200 ∧
    (-6 : ℚ) * 10 - (0 : ℚ) * 10 ≠ 0 := by
  refine ⟨?_, by norm_num, by norm_num⟩
  simp [Game_compute_separation, sep_rects, SHAPE_CIRC, SHAPE_RECT]
  norm_num

/-! ## C1: replay tank construction -/

/-- **C1 (the actual behaviour of the code).**  For every recorded replay, the
tank construction in the replay branch of `Game.setup` (core.py lines 292, 296)
passes the game instance as the first positional argument of
`Tank(...)`, shifting all positional arguments by one, so the call binds
`i` to the `team` parameter and then hits the explicit `team=` keyword:
Python raises `TypeError` and the replay never runs.  The new-game
branch call (line 277) binds fine, showing the embedding of the
`Tank.__init__` signature is not itself at fault. -/
theorem c1_replay_tank_typeerror (sx sy sangle : ℚ) (i team : ℕ) (record : Bool) :
    setup_replay_tank_call sx sy sangle i team =
      .error "TypeError: got multiple values for keyword argument" ∧
    (setup_brain_tank_call sx sy sangle i team record).isOk = true := by
  constructor
  · rfl
  · rfl

/-! ## C3: the crumbs end condition -/

/-- **C3 (the actual behaviour of the code).**  When the configured end
condition includes the crumbs flag, evaluating the per-step end condition
in `Game.run` resolves the name `allobjects`, which is bound neither in
`run` nor at module level (it is a local of `Game.setup`), so the check
raises `NameError` instead of testing for remaining crumbs and breaking the
loop normally; with the score-only flag the crumbs conjunct short-circuits
and nothing is raised. -/
theorem c3_crumbs_check_namerror :
    name_in_run_scope "allobjects" = false ∧
    (∀ crumbs_left : Bool,
      run_crumbs_end_check ENDGAME_CRUMBS crumbs_left =
        .error "NameError: global name allobjects is not defined") ∧
    (∀ crumbs_left : Bool,
      run_crumbs_end_check ENDGAME_SCORE crumbs_left = .ok false) := by
  refine ⟨by decide, ?_, ?_⟩ <;> intro b <;> cases b <;> rfl

/-! ## C4: decision delegate construction -/

/-- **C4 (the actual behaviour of the code).**  Red delegates are always built
from the red class with `TEAM_RED`, and blue delegates from the blue class
with `TEAM_BLUE` when `field_known` is true; but with `field_known = False`
the else branch of the blue loop (core.py line 285) builds the delegate from the
**red** brain class with `TEAM_RED` and the red kwargs, so the claimed
"for every value of the field_known setting" fails. -/
theorem c4_blue_brain_construction (i : ℕ) :
    setup_red_brain true i = ⟨RED_BRAIN_CLASS, i, TEAM_RED, RED_INIT, true⟩ ∧
    setup_red_brain false i = ⟨RED_BRAIN_CLASS, i, TEAM_RED, RED_INIT, false⟩ ∧
    setup_blue_brain true i = ⟨BLUE_BRAIN_CLASS, i, TEAM_BLUE, BLUE_INIT, true⟩ ∧
    (setup_blue_brain false i).cls = RED_BRAIN_CLASS ∧
    (setup_blue_brain false i).team_arg = TEAM_RED ∧
    (setup_blue_brain false i).init_kwargs = RED_INIT ∧
    ¬ (∀ fk : Bool, (setup_blue_brain fk i).cls = BLUE_BRAIN_CLASS ∧
        (setup_blue_brain fk i).team_arg = TEAM_BLUE) := by
  refine ⟨rfl, rfl, rfl, rfl, rfl, rfl, fun h => ?_⟩
  have := (h false).1
  simp [setup_blue_brain, RED_BRAIN_CLASS, BLUE_BRAIN_CLASS] at this

/-! ## C9: reachability of the generated field

The lemmas below establish the standard facts about grid path existence
(`canReach`): paths force free endpoints, fuel monotonicity, symmetry,
transitivity, and monotonicity under wall removal; together with the loop
invariant that every accepted wall candidate passes the reachability check,
they give the claim. -/

lemma tile_free_iff (g : Tilemap) (p : Tile) :
    tile_free g p = true ↔ (g.getD p.2 []).getD p.1 1 = 0 := by
  simp [tile_free]

lemma Adj_symm {p q : Tile} (h : Adj p q) : Adj q p := by
  unfold Adj at *
  omega

lemma mem_all_tiles_of_free {g : Tilemap} {p : Tile} (h : tile_free g p = true) :
    p ∈ all_tiles g := by
  obtain ⟨x, y⟩ := p
  rw [tile_free_iff] at h
  have hy : y < g.length := by
    by_contra hy
    push_neg at hy
    rw [List.getD_eq_default _ _ hy] at h
    simp [List.getD] at h
  have hx : x < (g.getD y []).length := by
    by_contra hx
    push_neg at hx
    rw [List.getD_eq_default _ _ hx] at h
    exact Nat.one_ne_zero h
  simp only [all_tiles, List.mem_flatMap, List.mem_map, List.mem_range]
  exact ⟨y, hy, x, hx, rfl⟩

lemma canReach_zero_iff {g : Tilemap} {s p : Tile} :
    canReach g 0 s p = true ↔ s = p ∧ tile_free g p = true := by
  simp [canReach]

lemma canReach_succ_iff {g : Tilemap} {n : ℕ} {s p : Tile} :
    canReach g (n + 1) s p = true ↔
      canReach g n s p = true ∨
        (tile_free g p = true ∧
          ∃ q ∈ all_tiles g, Adj q p ∧ canReach g n s q = true) := by
  simp [canReach]

lemma free_of_canReach {g : Tilemap} :
    ∀ {n : ℕ} {s p : Tile}, canReach g n s p = true → tile_free g p = true := by
  intro n
  induction n with
  | zero =>
    intro s p h
    exact (canReach_zero_iff.1 h).2
  | succ n ih =>
    intro s p h
    rcases canReach_succ_iff.1 h with h | ⟨hf, _⟩
    · exact ih h
    · exact hf

lemma free_start_of_canReach {g : Tilemap} :
    ∀ {n : ℕ} {s p : Tile}, canReach g n s p = true → tile_free g s = true := by
  intro n
  induction n with
  | zero =>
    intro s p h
    obtain ⟨rfl, hf⟩ := canReach_zero_iff.1 h
    exact hf
  | succ n ih =>
    intro s p h
    rcases canReach_succ_iff.1 h with h | ⟨_, q, _, _, hq⟩
    · exact ih h
    · exact ih hq

lemma canReach_succ_of_canReach {g : Tilemap} {n : ℕ} {s p : Tile}
    (h : canReach g n s p = true) : canReach g (n + 1) s p = true :=
  canReach_succ_iff.2 (Or.inl h)

lemma canReach_mono {g : Tilemap} {s p : Tile} {n m : ℕ} (hnm : n ≤ m)
    (h : canReach g n s p = true) : canReach g m s p = true := by
  obtain ⟨k, rfl⟩ := Nat.exists_eq_add_of_le hnm
  clear hnm
  induction k with
  | zero => exact h
  | succ k ih => exact canReach_succ_of_canReach ih

lemma canReach_self {g : Tilemap} {s : Tile} (h : tile_free g s = true) (n : ℕ) :
    canReach g n s s = true :=
  canReach_mono (Nat.zero_le n) (canReach_zero_iff.2 ⟨rfl, h⟩)

lemma canReach_extend {g : Tilemap} {n : ℕ} {s p q : Tile} (hadj : Adj q p)
    (hf : tile_free g p = true) (h : canReach g n s q = true) :
    canReach g (n + 1) s p = true :=
  canReach_succ_iff.2 (Or.inr ⟨hf,
    q, mem_all_tiles_of_free (free_of_canReach h), hadj, h⟩)

lemma canReach_prepend {g : Tilemap} {p q : Tile} (hadj : Adj p q)
    (hfp : tile_free g p = true) :
    ∀ {n : ℕ} {s : Tile}, canReach g n q s = true → canReach g (n + 1) p s = true := by
  intro n
  induction n with
  | zero =>
    intro s h
    obtain ⟨rfl, hfs⟩ := canReach_zero_iff.1 h
    exact canReach_extend hadj hfs (canReach_zero_iff.2 ⟨rfl, hfp⟩)
  | succ n ih =>
    intro s h
    rcases canReach_succ_iff.1 h with h | ⟨hfs, r, _, hadjr, hr⟩
    · exact canReach_succ_of_canReach (ih h)
    · exact canReach_extend hadjr hfs (ih hr)

lemma canReach_symm {g : Tilemap} :
    ∀ {n : ℕ} {s p : Tile}, canReach g n s p = true → canReach g n p s = true := by
  intro n
  induction n with
  | zero =>
    intro s p h
    obtain ⟨rfl, hf⟩ := canReach_zero_iff.1 h
    exact canReach_zero_iff.2 ⟨rfl, hf⟩
  | succ n ih =>
    intro s p h
    rcases canReach_succ_iff.1 h with h | ⟨hfp, q, _, hadj, hq⟩
    · exact canReach_succ_of_canReach (ih h)
    · exact canReach_prepend (Adj_symm hadj) hfp (ih hq)

lemma canReach_trans {g : Tilemap} :
    ∀ {m n : ℕ} {s q p : Tile}, canReach g n s q = true →
      canReach g m q p = true → canReach g (n + m) s p = true := by
  intro m
  induction m with
  | zero =>
    intro n s q p h1 h2
    obtain ⟨rfl, _⟩ := canReach_zero_iff.1 h2
    exact h1
  | succ m ih =>
    intro n s q p h1 h2
    rcases canReach_succ_iff.1 h2 with h2 | ⟨hfp, r, _, hadj, hr⟩
    · exact canReach_succ_of_canReach (ih h1 h2)
    · exact canReach_extend hadj hfp (ih h1 hr)

lemma canReach_grid_mono {g g2 : Tilemap}
    (hsub : ∀ p, tile_free g p = true → tile_free g2 p = true) :
    ∀ {n : ℕ} {s p : Tile}, canReach g n s p = true → canReach g2 n s p = true := by
  intro n
  induction n with
  | zero =>
    intro s p h
    obtain ⟨rfl, hf⟩ := canReach_zero_iff.1 h
    exact canReach_zero_iff.2 ⟨rfl, hsub _ hf⟩
  | succ n ih =>
    intro s p h
    rcases canReach_succ_iff.1 h with h | ⟨hfp, q, _, hadj, hq⟩
    · exact canReach_succ_of_canReach (ih h)
    · exact canReach_succ_iff.2 (Or.inr ⟨hsub _ hfp,
        q, mem_all_tiles_of_free (free_of_canReach (ih hq)), hadj, ih hq⟩)

lemma getD_set {α : Type} (l : List α) (i j : ℕ) (a d : α) :
    (l.set i a).getD j d = if i = j ∧ j < l.length then a else l.getD j d := by
  induction l generalizing i j with
  | nil => simp
  | cons x xs ih =>
    cases i with
    | zero =>
      cases j with
      | zero => simp
      | succ j => simp [List.getD]
    | succ i =>
      cases j with
      | zero => simp
      | succ j =>
        simp only [List.set, List.getD_cons_succ, ih, List.length_cons]
        split_ifs with h1 h2
        · rfl
        · exact absurd ⟨by omega, by omega⟩ h2
        · exact absurd ⟨by omega, by omega⟩ h1
        · rfl

lemma tile_free_set_tile_zero {g : Tilemap} {q p : Tile}
    (h : tile_free g p = true) : tile_free (set_tile g q 0) p = true := by
  obtain ⟨x, y⟩ := p
  obtain ⟨a, b⟩ := q
  rw [tile_free_iff] at h ⊢
  unfold set_tile
  rw [getD_set]
  split_ifs with h1
  · obtain ⟨rfl, _⟩ := h1
    rw [getD_set]
    split_ifs with h2
    · rfl
    · exact h
  · exact h

lemma clear_tiles_free_mono {ps : List Tile} :
    ∀ {g : Tilemap} (p : Tile), tile_free g p = true →
      tile_free (clear_tiles g ps) p = true := by
  induction ps with
  | nil =>
    intro g p h
    simpa [clear_tiles]
  | cons a rest ih =>
    intro g p h
    have : clear_tiles g (a :: rest) = clear_tiles (set_tile g a 0) rest := rfl
    rw [this]
    exact ih p (tile_free_set_tile_zero h)

lemma create_wall_loop_check (width min_filled : ℕ) (spawn : Tile) (pts : List Tile) :
    ∀ (segs : List WallSeg) (g : Tilemap) (failed : ℕ),
      reachable_all (reflect_tilemap g width) spawn pts = true →
      reachable_all
        (reflect_tilemap (create_wall_loop width spawn pts min_filled g failed segs) width)
        spawn pts = true := by
  intro segs
  induction segs with
  | nil =>
    intro g failed h
    simpa [create_wall_loop]
  | cons seg rest ih =>
    intro g failed h
    rw [create_wall_loop]
    split_ifs with h1 h2
    · exact h
    · exact ih _ _ h2
    · exact ih _ _ h

/-- **C9.**  For every field produced by `FieldGenerator.generate` — i.e.
for every candidate-segment stream (covering every random seed), every
retry-budget outcome, and every set of tiles cleared under the placed
objects — every red-spawn, blue-spawn, control-point and ammo-fountain tile
of the final wall grid is reachable from every red spawn tile through
wall-free tiles.  The hypothesis is that the check already holds on the
initial outer-wall-only map, which is true for the generated layouts
(all placed objects are interior, and the interior of the initial map is
completely free; the witness checks a concrete instance). -/
theorem c9_generate_reachability (width height min_filled : ℕ) (spawn0 : Tile)
    (cps others redspawns bluespawns : List Tile)
    (segs : List WallSeg) (cleared : List Tile)
    (hinit : reachable_all (reflect_tilemap (initial_tilemap width height) width)
        spawn0 (cps ++ others ++ redspawns ++ bluespawns) = true) :
    ∀ s ∈ redspawns, ∀ p ∈ cps ++ others ++ redspawns ++ bluespawns,
      ∃ n, canReach
          (generate_walls width height spawn0 (cps ++ others ++ redspawns ++ bluespawns)
            min_filled segs cleared) n s p = true := by
  intro s hs p hp
  have hs2 : s ∈ cps ++ others ++ redspawns ++ bluespawns := by
    simp only [List.mem_append]
    exact Or.inl (Or.inr hs)
  have hloop := create_wall_loop_check width min_filled spawn0
    (cps ++ others ++ redspawns ++ bluespawns) segs (initial_tilemap width height) 0 hinit
  rw [reachable_all, List.all_eq_true] at hloop
  have h1 := hloop s hs2
  have h2 := hloop p hp
  have h3 := canReach_trans (canReach_symm h1) h2
  exact ⟨_, canReach_grid_mono (fun q => clear_tiles_free_mono q) h3⟩

/-- **C9 witness**: a 3x3 map whose only interior tile hosts the single red
spawn; the initial-map check is discharged by computation. -/
theorem c9_generate_reachability_witness :
    reachable_all (reflect_tilemap (initial_tilemap 3 3) 3) (1, 1)
        ([] ++ [] ++ [(1, 1)] ++ []) = true ∧
    ∀ s ∈ [((1 : ℕ), (1 : ℕ))], ∀ p ∈ ([] ++ [] ++ [(1, 1)] ++ [] : List Tile),
      ∃ n, canReach (generate_walls 3 3 (1, 1) ([] ++ [] ++ [(1, 1)] ++ [])
          0 [] []) n s p = true :=
  ⟨by decide,
   c9_generate_reachability 3 3 0 (1, 1) [] [] [(1, 1)] [] [] [] (by decide)⟩

end Domination
